import Mathlib

/-!
Shallow embedding of `src/no-response.ts` (class `NoResponse`): the decision
logic and the sequences of remote-service mutations that `sweep`, `unmark`
and `removeLabels` perform, modelled as pure functions from the data each
method reads (configuration, webhook payload, issue state fetched from the
remote service) to the list of mutating API calls it issues.
-/

namespace NoResponse

/-- Issue reference, mirroring the `Issue` interface of the source. -/
structure Issue where
  issue_number : Nat
  owner : String
  repo : String
deriving DecidableEq

/-- A label event as returned by `listEvents`, mirroring the `LabeledEvent`
interface: `created_at` is a millisecond timestamp, `label` is the label
name (`label.name` in the source). The event list is chronological. -/
structure LabeledEvent where
  created_at : Int
  event : String
  label : String
deriving DecidableEq

/-- Action configuration, mirroring the fields of `Config` that
`no-response.ts` consults. Optional string settings are `Option String`;
JavaScript truthiness tests on them treat the empty string as absent. -/
structure Config where
  owner : String
  repo : String
  responseRequiredLabel : String
  responseRequiredColor : String
  daysUntilClose : Nat
  closeComment : Option String
  optionalFollowUpLabel : Option String
  optionalFollowUpLabelColor : Option String
deriving DecidableEq

/-- A mutating call against the remote issue service (octokit). Reads are
inputs to the model, so only writes appear here. -/
inductive Action where
  | removeLabel : Issue → String → Action
  | addLabels : Issue → List String → Action
  | createComment : Issue → String → Action
  | updateState : Issue → (state : String) → (state_reason : Option String) → Action
  | createLabel : (name : String) → (color : String) → Action
deriving DecidableEq

/-- JavaScript `x || d` on an optional string setting: `undefined` and the
empty string both fall back to the default. -/
def jsOr (o : Option String) (d : String) : String :=
  match o with
  | none => d
  | some s => if s = "" then d else s

/-- The predicate of `findLastLabeledEvent`:
`event.event === 'labeled' && event.label.name === responseRequiredLabel`. -/
def matchesLabel (responseRequiredLabel : String) (e : LabeledEvent) : Bool :=
  e.event == "labeled" && e.label == responseRequiredLabel

/-- `findLastLabeledEvent`: reverse the chronological event list and take the
first event applying the response-required label. -/
def findLastLabeledEvent (responseRequiredLabel : String)
    (events : List LabeledEvent) : Option LabeledEvent :=
  events.reverse.find? (matchesLabel responseRequiredLabel)

/-- `since(days)`: the instant `days * 24 * 60 * 60 * 1000` milliseconds
before `now` (the source reads `now` from `new Date().getTime()`; here it is
a parameter). -/
def since (now : Int) (days : Nat) : Int :=
  now - (days : Int) * 24 * 60 * 60 * 1000

/-- The filter body of `getCloseableIssues` for a single issue: no matching
labeled event means not closeable; otherwise closeable iff
`creationDate < labeledEarlierThan` (strict). -/
def isCloseable (cfg : Config) (now : Int) (events : List LabeledEvent) : Bool :=
  match findLastLabeledEvent cfg.responseRequiredLabel events with
  | none => false
  | some e => e.created_at < since now cfg.daysUntilClose

/-- `getCloseableIssues` after the search call: each candidate issue number
paired with its full label-event history is kept iff `isCloseable`. -/
def getCloseableIssues (cfg : Config) (now : Int)
    (items : List (Nat × List LabeledEvent)) : List Nat :=
  (items.filter (fun it => isCloseable cfg now it.2)).map (fun it => it.1)

/-- The search request issued by `getCloseableIssues`
(`octokit.rest.search.issuesAndPullRequests`). -/
structure SearchRequest where
  q : String
  sort : String
  order : String
  per_page : Nat
deriving DecidableEq

/-- The search request as built by the source: query from the template
literal, sorted by `updated` ascending, one page of 30. -/
def searchRequest (cfg : Config) : SearchRequest :=
  { q := "repo:" ++ cfg.owner ++ "/" ++ cfg.repo
      ++ " is:issue is:open label:\"" ++ cfg.responseRequiredLabel ++ "\""
    sort := "updated"
    order := "asc"
    per_page := 30 }

/-- The query grammar stated by the spec, for comparison with the source:
`repo:<owner>/<repo> is:issue is:open label:"<name>"`. -/
def specSearchQuery (owner repo name : String) : String :=
  "repo:" ++ owner ++ "/" ++ repo ++ " is:issue is:open label:\"" ++ name ++ "\""

/-- `close(issue)`: post the close comment when one is configured (truthy),
then set the issue state to closed with reason `inactivity`. -/
def close (cfg : Config) (issue : Issue) : List Action :=
  (match cfg.closeComment with
   | none => []
   | some c => if c = "" then [] else [Action.createComment issue c])
  ++ [Action.updateState issue "closed" (some "inactivity")]

/-- `ensureLabelExists(name, color)`: `getLabel` throwing (the label is
absent from the repository) triggers `createLabel`; otherwise nothing.
`repoLabels` is the set of label names existing on the repository. -/
def ensureLabelExists (repoLabels : List String) (name color : String) : List Action :=
  if repoLabels.contains name then [] else [Action.createLabel name color]

/-- The `IssuesEvent` payload fields that `removeLabels` reads. -/
structure IssuesEventPayload where
  action : String
  repoOwner : String
  repoName : String
  issueNumber : Nat
  issueAuthor : String
  senderLogin : String
deriving DecidableEq

/-- The `IssueCommentEvent` payload fields that `unmark` reads. -/
structure IssueCommentPayload where
  repoOwner : String
  repoName : String
  issueNumber : Nat
  commentAuthor : String
deriving DecidableEq

/-- The issue data `unmark` fetches with `issues.get`: `user?.login`,
`state`, `closed_by?.login`. -/
structure IssueInfo where
  author : Option String
  state : String
  closedBy : Option String
deriving DecidableEq

/-- `removeLabels()`: return early when no `optionalFollowUpLabel` is
configured (falsy) or the action is not `closed`; when the issue was closed
by its own author, remove `responseRequiredLabel` and `optionalFollowUpLabel`,
each only if currently present on the issue. -/
def removeLabels (cfg : Config) (payload : IssuesEventPayload)
    (labelsOnIssue : List String) : List Action :=
  match cfg.optionalFollowUpLabel with
  | none => []
  | some followUp =>
    if followUp = "" then []
    else if payload.action ≠ "closed" then []
    else if payload.action = "closed" ∧ payload.issueAuthor = payload.senderLogin then
      (if labelsOnIssue.contains cfg.responseRequiredLabel then
        [Action.removeLabel ⟨payload.issueNumber, payload.repoOwner, payload.repoName⟩
          cfg.responseRequiredLabel]
       else [])
      ++ (if labelsOnIssue.contains followUp then
        [Action.removeLabel ⟨payload.issueNumber, payload.repoOwner, payload.repoName⟩
          followUp]
       else [])
    else []

/-- The `if (optionalFollowUpLabel)` block of `unmark`: when a follow-up
label is configured (truthy), ensure it exists — with the configured color,
falling back to `ffffff` — and add it to the issue. -/
def followUpActions (cfg : Config) (issue : Issue) (repoLabels : List String) : List Action :=
  match cfg.optionalFollowUpLabel with
  | none => []
  | some fl =>
    if fl = "" then []
    else
      ensureLabelExists repoLabels fl (jsOr cfg.optionalFollowUpLabelColor "ffffff")
      ++ [Action.addLabels issue [fl]]

/-- `unmark()`: `readPayload` throws when `GITHUB_EVENT_PATH` is not defined,
before any remote call. Otherwise, when the response-required label is on the
issue and the commenter is the issue author, remove the label; if a follow-up
label is configured, ensure it exists (default color `ffffff`) and add it;
reopen when the issue is closed and its closer is not the author. -/
def unmark (cfg : Config) (githubEventPath : Option String)
    (payload : IssueCommentPayload) (info : IssueInfo)
    (labelsOnIssue : List String) (repoLabels : List String) :
    Except String (List Action) :=
  match githubEventPath with
  | none => Except.error "GITHUB_EVENT_PATH is not defined"
  | some _ =>
    if labelsOnIssue.contains cfg.responseRequiredLabel = true
        ∧ info.author = some payload.commentAuthor then
      Except.ok (
        [Action.removeLabel ⟨payload.issueNumber, payload.repoOwner, payload.repoName⟩
          cfg.responseRequiredLabel]
        ++ followUpActions cfg ⟨payload.issueNumber, payload.repoOwner, payload.repoName⟩ repoLabels
        ++ (if info.state = "closed" ∧ info.author ≠ info.closedBy then
              [Action.updateState ⟨payload.issueNumber, payload.repoOwner, payload.repoName⟩
                "open" none]
            else []))
    else Except.ok []

/-! ### Example fixtures used by witnesses and counterexamples -/

/-- A fully-populated configuration used as a concrete witness input. -/
def exCfg : Config :=
  { owner := "jeffpaul"
    repo := "no-response-add-label"
    responseRequiredLabel := "response-required"
    responseRequiredColor := "ffffff"
    daysUntilClose := 14
    closeComment := some "closing due to inactivity"
    optionalFollowUpLabel := some "follow-up"
    optionalFollowUpLabelColor := none }

/-- A single application of the response-required label at time 0. -/
def exEvents : List LabeledEvent :=
  [{ created_at := 0, event := "labeled", label := "response-required" }]

end NoResponse

namespace NoResponse

/-! ### Helper lemmas -/

/-- Scanning the reversed chronological event list for the first match is the
same as taking the last (most recent) matching event of the original list. -/
theorem findLastLabeledEvent_eq_getLast (rrl : String) (events : List LabeledEvent) :
    findLastLabeledEvent rrl events = (events.filter (matchesLabel rrl)).getLast? := by
  unfold findLastLabeledEvent
  rw [← List.filter_head?, List.filter_reverse, List.head?_reverse]

/-- Every action emitted by the follow-up block is a label creation or a
label addition — never a label removal or a state change. -/
theorem followUpActions_shape (cfg : Config) (issue : Issue) (repoLabels : List String) :
    ∀ a ∈ followUpActions cfg issue repoLabels,
      (∃ n c, a = Action.createLabel n c) ∨ (∃ ls, a = Action.addLabels issue ls) := by
  intro a ha
  unfold followUpActions ensureLabelExists at ha
  cases hfl : cfg.optionalFollowUpLabel with
  | none => rw [hfl] at ha; simp at ha
  | some fl =>
    rw [hfl] at ha
    by_cases h1 : fl = ""
    · simp [h1] at ha
    · simp [h1] at ha
      rcases ha with ⟨-, ha⟩ | ha
      · exact Or.inl ⟨fl, _, ha⟩
      · exact Or.inr ⟨[fl], ha⟩

/-- Unfolding characterisation of the closeability filter: closeable iff the
scan finds a matching labeled event dated strictly before `since`. -/
theorem isCloseable_iff (cfg : Config) (now : Int) (events : List LabeledEvent) :
    isCloseable cfg now events = true ↔
      ∃ e, findLastLabeledEvent cfg.responseRequiredLabel events = some e ∧
        e.created_at < since now cfg.daysUntilClose := by
  unfold isCloseable
  split
  next heq => simp [heq]
  next e heq => simp [heq]

/-! ### Claim theorems -/

/-- C1: an issue is judged closeable iff the most recent `labeled` event
whose label equals `responseRequiredLabel` exists and its timestamp is
strictly below `now - daysUntilClose * 24h` (in milliseconds); with no such
event it is not closeable, and a timestamp exactly at the threshold is not
closeable. -/
theorem c1_closeable_iff_last_label_older_than_threshold
    (cfg : Config) (now : Int) (events : List LabeledEvent) :
    (isCloseable cfg now events = true ↔
      ∃ e, (events.filter (matchesLabel cfg.responseRequiredLabel)).getLast? = some e ∧
        e.created_at < now - (cfg.daysUntilClose : Int) * 24 * 60 * 60 * 1000) ∧
    (∀ e, (events.filter (matchesLabel cfg.responseRequiredLabel)).getLast? = some e →
      e.created_at = now - (cfg.daysUntilClose : Int) * 24 * 60 * 60 * 1000 →
      isCloseable cfg now events = false) := by
  constructor
  · rw [isCloseable_iff, findLastLabeledEvent_eq_getLast]
    simp [since]
  · intro e he heq
    rw [← findLastLabeledEvent_eq_getLast] at he
    cases hb : isCloseable cfg now events with
    | false => rfl
    | true =>
      exfalso
      obtain ⟨e', he', hlt⟩ := (isCloseable_iff cfg now events).mp hb
      rw [he] at he'
      cases he'
      simp only [since] at hlt
      omega

/-- C1 witness: with `daysUntilClose = 14` and the label applied at time 0,
the issue is closeable at `now = 14 days + 1 ms` and the threshold-equality
case yields not closeable. -/
theorem c1_witness :
    isCloseable exCfg 1209600001 exEvents = true :=
  ((c1_closeable_iff_last_label_older_than_threshold exCfg 1209600001 exEvents).1).mpr
    ⟨{ created_at := 0, event := "labeled", label := "response-required" }, by decide, by decide⟩

/-- C6: for a fixed event history, closeability is monotonic in elapsed
time: closeable at `now` implies closeable at every later `now'`. -/
theorem c6_closeable_monotonic (cfg : Config) (events : List LabeledEvent)
    (now now' : Int) (h : isCloseable cfg now events = true) (hlt : now < now') :
    isCloseable cfg now' events = true := by
  rw [isCloseable_iff] at h ⊢
  obtain ⟨e, he, hclock⟩ := h
  refine ⟨e, he, ?_⟩
  simp only [since] at hclock ⊢
  omega

/-- C6 witness: closeable one tick after the 14-day threshold, hence still
closeable a tick later. -/
theorem c6_witness :
    isCloseable exCfg 1209600002 exEvents = true :=
  c6_closeable_monotonic exCfg exEvents 1209600001 1209600002 (by decide) (by decide)

/-- C7: the sweep queries the remote service with exactly
`repo:<owner>/<repo> is:issue is:open label:"<responseRequiredLabel>"`,
sorted by update time ascending, one page of 30 issues. -/
theorem c7_search_request_shape (cfg : Config) :
    (searchRequest cfg).q = specSearchQuery cfg.owner cfg.repo cfg.responseRequiredLabel ∧
    (searchRequest cfg).sort = "updated" ∧
    (searchRequest cfg).order = "asc" ∧
    (searchRequest cfg).per_page = 30 :=
  ⟨rfl, rfl, rfl, rfl⟩

/-- C8: closing a closeable issue posts the configured close comment first
and then sets the state to closed with reason `inactivity`; with no close
comment configured only the state change occurs. -/
theorem c8_close_comment_then_transition (cfg : Config) (issue : Issue) :
    (∀ c, cfg.closeComment = some c → c ≠ "" →
      close cfg issue =
        [Action.createComment issue c,
         Action.updateState issue "closed" (some "inactivity")]) ∧
    (cfg.closeComment = none →
      close cfg issue = [Action.updateState issue "closed" (some "inactivity")]) := by
  constructor
  · intro c hc hne
    simp [close, hc, hne]
  · intro hc
    simp [close, hc]

/-- C8 witness: with the example configuration's close comment, the close
sequence is comment first, then the state transition. -/
theorem c8_witness :
    close exCfg ⟨1, "jeffpaul", "no-response-add-label"⟩ =
      [Action.createComment ⟨1, "jeffpaul", "no-response-add-label"⟩
        "closing due to inactivity",
       Action.updateState ⟨1, "jeffpaul", "no-response-add-label"⟩
        "closed" (some "inactivity")] :=
  (c8_close_comment_then_transition exCfg ⟨1, "jeffpaul", "no-response-add-label"⟩).1
    "closing due to inactivity" rfl (by decide)

/-- C9: with `GITHUB_EVENT_PATH` undefined, `unmark` fails with the
configuration error and performs no remote mutation. -/
theorem c9_unmark_missing_event_path (cfg : Config) (payload : IssueCommentPayload)
    (info : IssueInfo) (labelsOnIssue repoLabels : List String) :
    unmark cfg none payload info labelsOnIssue repoLabels =
      Except.error "GITHUB_EVENT_PATH is not defined" :=
  rfl

/-- C5: an issue-closed event whose sender differs from the issue author
removes no labels. -/
theorem c5_no_removal_when_closer_differs (cfg : Config) (payload : IssuesEventPayload)
    (labelsOnIssue : List String) (h : payload.issueAuthor ≠ payload.senderLogin) :
    removeLabels cfg payload labelsOnIssue = [] := by
  cases hfl : cfg.optionalFollowUpLabel with
  | none => simp [removeLabels, hfl]
  | some fl =>
    by_cases h1 : fl = ""
    · simp [removeLabels, hfl, h1]
    · by_cases h2 : payload.action = "closed"
      · simp [removeLabels, hfl, h1, h2, h]
      · simp [removeLabels, hfl, h1, h2]

/-- Payload of an issue closed by a maintainer, not its author. -/
def exClosedByMaintainer : IssuesEventPayload :=
  { action := "closed", repoOwner := "jeffpaul", repoName := "no-response-add-label",
    issueNumber := 2, issueAuthor := "alice", senderLogin := "maintainer" }

/-- C5 witness: a maintainer-closed issue carrying both labels keeps them. -/
theorem c5_witness :
    removeLabels exCfg exClosedByMaintainer ["response-required", "follow-up"] = [] :=
  c5_no_removal_when_closer_differs exCfg exClosedByMaintainer
    ["response-required", "follow-up"] (by decide)

/-- Configuration with no follow-up label configured. -/
def cexCfgNoFollowUp : Config :=
  { owner := "jeffpaul"
    repo := "no-response-add-label"
    responseRequiredLabel := "response-required"
    responseRequiredColor := "ffffff"
    daysUntilClose := 14
    closeComment := none
    optionalFollowUpLabel := none
    optionalFollowUpLabelColor := none }

/-- Payload of an issue closed by its own author. -/
def cexSelfClose : IssuesEventPayload :=
  { action := "closed", repoOwner := "jeffpaul", repoName := "no-response-add-label",
    issueNumber := 3, issueAuthor := "alice", senderLogin := "alice" }

/-- C2 counterexample: with no `optionalFollowUpLabel` configured, a
self-closed issue carrying `responseRequiredLabel` has no label removed —
`removeLabels` returns before stripping anything, contradicting the claim
that `responseRequiredLabel` is removed on every author self-close. -/
theorem c2_counterexample :
    cexSelfClose.action = "closed" ∧
    cexSelfClose.issueAuthor = cexSelfClose.senderLogin ∧
    (["response-required"] : List String).contains
      cexCfgNoFollowUp.responseRequiredLabel = true ∧
    removeLabels cexCfgNoFollowUp cexSelfClose ["response-required"] = [] :=
  ⟨rfl, rfl, rfl, rfl⟩

/-- C2 (amended): when `optionalFollowUpLabel` is configured (truthy), an
author self-close removes `responseRequiredLabel` and the follow-up label,
each exactly when it is currently present, and nothing else; when no
follow-up label is configured, no label is removed. -/
theorem c2_remove_labels_on_self_close (cfg : Config) (payload : IssuesEventPayload)
    (labelsOnIssue : List String)
    (hact : payload.action = "closed")
    (hauth : payload.issueAuthor = payload.senderLogin) :
    (∀ fl, cfg.optionalFollowUpLabel = some fl → fl ≠ "" →
      ((Action.removeLabel ⟨payload.issueNumber, payload.repoOwner, payload.repoName⟩
          cfg.responseRequiredLabel ∈ removeLabels cfg payload labelsOnIssue
        ↔ labelsOnIssue.contains cfg.responseRequiredLabel = true) ∧
       (Action.removeLabel ⟨payload.issueNumber, payload.repoOwner, payload.repoName⟩ fl
          ∈ removeLabels cfg payload labelsOnIssue
        ↔ labelsOnIssue.contains fl = true) ∧
       ∀ a ∈ removeLabels cfg payload labelsOnIssue,
         a = Action.removeLabel ⟨payload.issueNumber, payload.repoOwner, payload.repoName⟩
               cfg.responseRequiredLabel ∨
         a = Action.removeLabel ⟨payload.issueNumber, payload.repoOwner, payload.repoName⟩
               fl)) ∧
    (cfg.optionalFollowUpLabel = none → removeLabels cfg payload labelsOnIssue = []) := by
  constructor
  · intro fl hfl hne
    by_cases heq : cfg.responseRequiredLabel = fl
    · by_cases hf : fl ∈ labelsOnIssue <;>
        simp [removeLabels, hfl, hne, hact, hauth, heq, hf]
    · by_cases hr : cfg.responseRequiredLabel ∈ labelsOnIssue <;>
        by_cases hf : fl ∈ labelsOnIssue <;>
          simp [removeLabels, hfl, hne, hact, hauth, heq, Ne.symm heq, hr, hf]
  · intro h
    simp [removeLabels, h]

/-- Payload of another issue closed by its own author. -/
def wSelfClose : IssuesEventPayload :=
  { action := "closed", repoOwner := "jeffpaul", repoName := "no-response-add-label",
    issueNumber := 4, issueAuthor := "alice", senderLogin := "alice" }

/-- C2 witness: with the follow-up label configured, an author self-close of
an issue carrying `responseRequiredLabel` removes it. -/
theorem c2_witness :
    Action.removeLabel ⟨4, "jeffpaul", "no-response-add-label"⟩ "response-required"
      ∈ removeLabels exCfg wSelfClose ["response-required", "follow-up"] :=
  (((c2_remove_labels_on_self_close exCfg wSelfClose
      ["response-required", "follow-up"] rfl rfl).1 "follow-up" rfl
      (by decide)).1).mpr (by decide)

/-- C3: with an event payload available, `unmark` removes
`responseRequiredLabel` iff the label is currently on the issue and the
commenter is the issue's original author; otherwise it performs no mutation
at all. -/
theorem c3_unmark_removes_iff_author_and_marked (cfg : Config) (path : String)
    (payload : IssueCommentPayload) (info : IssueInfo)
    (labelsOnIssue repoLabels : List String) :
    ∃ acts, unmark cfg (some path) payload info labelsOnIssue repoLabels = Except.ok acts ∧
      ((Action.removeLabel ⟨payload.issueNumber, payload.repoOwner, payload.repoName⟩
          cfg.responseRequiredLabel ∈ acts
        ↔ (labelsOnIssue.contains cfg.responseRequiredLabel = true
            ∧ info.author = some payload.commentAuthor)) ∧
       (¬(labelsOnIssue.contains cfg.responseRequiredLabel = true
            ∧ info.author = some payload.commentAuthor) → acts = [])) := by
  unfold unmark
  by_cases hc : labelsOnIssue.contains cfg.responseRequiredLabel = true
      ∧ info.author = some payload.commentAuthor
  · rw [if_pos hc]
    refine ⟨_, rfl, ⟨fun _ => hc, fun _ => ?_⟩, fun hn => absurd hc hn⟩
    exact List.mem_append_left _ (List.mem_append_left _ (List.mem_singleton_self _))
  · rw [if_neg hc]
    refine ⟨[], rfl, ?_, fun _ => rfl⟩
    simp only [List.not_mem_nil, false_iff]
    exact hc

/-- Comment payload used by the unmark witnesses. -/
def wComment : IssueCommentPayload :=
  { repoOwner := "jeffpaul", repoName := "no-response-add-label",
    issueNumber := 5, commentAuthor := "alice" }

/-- Issue state: authored by alice, closed by a maintainer. -/
def wInfoClosed : IssueInfo :=
  { author := some "alice", state := "closed", closedBy := some "maintainer" }

/-- C3 witness: the original author commenting on a marked issue yields a
run whose actions contain the removal of `responseRequiredLabel`. -/
theorem c3_witness :
    ∃ acts, unmark exCfg (some "/github/workflow/event.json") wComment wInfoClosed
        ["response-required"] ["follow-up"] = Except.ok acts ∧
      Action.removeLabel ⟨5, "jeffpaul", "no-response-add-label"⟩ "response-required" ∈ acts := by
  obtain ⟨acts, hrun, hiff, -⟩ :=
    c3_unmark_removes_iff_author_and_marked exCfg "/github/workflow/event.json"
      wComment wInfoClosed ["response-required"] ["follow-up"]
  exact ⟨acts, hrun, hiff.mpr (by decide)⟩

/-- C4: during a qualifying unmark, the issue is reopened iff it is
currently closed and its closer is not the original author. -/
theorem c4_reopen_iff_closed_by_other (cfg : Config) (path : String)
    (payload : IssueCommentPayload) (info : IssueInfo)
    (labelsOnIssue repoLabels : List String)
    (hq : labelsOnIssue.contains cfg.responseRequiredLabel = true
          ∧ info.author = some payload.commentAuthor) :
    ∃ acts, unmark cfg (some path) payload info labelsOnIssue repoLabels = Except.ok acts ∧
      (Action.updateState ⟨payload.issueNumber, payload.repoOwner, payload.repoName⟩
          "open" none ∈ acts
        ↔ (info.state = "closed" ∧ info.author ≠ info.closedBy)) := by
  unfold unmark
  rw [if_pos hq]
  refine ⟨_, rfl, ?_⟩
  by_cases hr : info.state = "closed" ∧ info.author ≠ info.closedBy
  · refine ⟨fun _ => hr, fun _ => ?_⟩
    rw [if_pos hr]
    exact List.mem_append_right _ (List.mem_singleton_self _)
  · refine ⟨fun hmem => ?_, fun hx => absurd hx hr⟩
    exfalso
    rw [if_neg hr, List.append_nil] at hmem
    rcases List.mem_append.mp hmem with hmem | hmem
    · simp at hmem
    · rcases followUpActions_shape cfg
        ⟨payload.issueNumber, payload.repoOwner, payload.repoName⟩ repoLabels _ hmem with
        ⟨n, c, hh⟩ | ⟨ls, hh⟩ <;> simp at hh

/-- C4 witness: alice's comment on her marked issue that a maintainer
closed reopens it. -/
theorem c4_witness :
    ∃ acts, unmark exCfg (some "/github/workflow/event.json") wComment wInfoClosed
        ["response-required"] ["follow-up"] = Except.ok acts ∧
      (Action.updateState ⟨5, "jeffpaul", "no-response-add-label"⟩ "open" none ∈ acts
        ↔ (wInfoClosed.state = "closed" ∧ wInfoClosed.author ≠ wInfoClosed.closedBy)) :=
  c4_reopen_iff_closed_by_other exCfg "/github/workflow/event.json" wComment wInfoClosed
    ["response-required"] ["follow-up"] (by decide)

/-- C10: during a qualifying unmark with a follow-up label configured but no
follow-up color configured, an absent follow-up label is created with the
default color `ffffff`. -/
theorem c10_followup_created_with_default_color (cfg : Config) (path : String)
    (payload : IssueCommentPayload) (info : IssueInfo)
    (labelsOnIssue repoLabels : List String) (fl : String)
    (hq : labelsOnIssue.contains cfg.responseRequiredLabel = true
          ∧ info.author = some payload.commentAuthor)
    (hfl : cfg.optionalFollowUpLabel = some fl) (hne : fl ≠ "")
    (hcolor : cfg.optionalFollowUpLabelColor = none)
    (habs : repoLabels.contains fl = false) :
    ∃ acts, unmark cfg (some path) payload info labelsOnIssue repoLabels = Except.ok acts ∧
      Action.createLabel fl "ffffff" ∈ acts := by
  unfold unmark
  rw [if_pos hq]
  refine ⟨_, rfl, ?_⟩
  have habs' : fl ∉ repoLabels := by simpa using habs
  simp [followUpActions, hfl, hne, ensureLabelExists, habs', jsOr, hcolor]

/-- C10 witness: with `optionalFollowUpLabelColor` unset and `follow-up`
absent from the repository, unmarking creates it with color `ffffff`. -/
theorem c10_witness :
    ∃ acts, unmark exCfg (some "/github/workflow/event.json") wComment wInfoClosed
        ["response-required"] [] = Except.ok acts ∧
      Action.createLabel "follow-up" "ffffff" ∈ acts :=
  c10_followup_created_with_default_color exCfg "/github/workflow/event.json" wComment
    wInfoClosed ["response-required"] [] "follow-up" (by decide) rfl (by decide) rfl rfl

end NoResponse
